import Mathlib

/-!
Shallow embedding of `burncloud-database-core` (src/src/database.rs and
src/src/error.rs) in Lean 4.

The Rust crate is a thin lifecycle wrapper around a pooled SQLite engine:
a `Database` handle stores a path string and an optional pooled
connection; `initialize` opens the pool, the query/fetch helpers check
initialization and delegate to the engine, and two helper functions
resolve a platform-default database path and ensure its parent directory.

The ambient effects (environment variables, home directory, filesystem
directories, the sqlx engine) are modelled by an explicit `World` record
threaded through the operations.  The engine itself (sqlx) is external to
the repository, so pool opening and query execution are oracle fields of
`World`; everything the repository's own code does — the branching, error
wrapping, state updates — is translated directly from `database.rs`.
-/

/-- A filesystem path value, mirroring Rust's `PathBuf`: an absoluteness
flag and the list of components.  `PathBuf::join` with a plain relative
component appends it. -/
structure PathBuf where
  isAbs : Bool
  comps : List String
deriving DecidableEq, Repr

/-- `PathBuf::join` with a single relative component. -/
def PathBuf.join (p : PathBuf) (c : String) : PathBuf :=
  ⟨p.isAbs, p.comps ++ [c]⟩

/-- `Path::parent`: strip the last component; `None` when there is no
component left (e.g. the root). -/
def PathBuf.parent (p : PathBuf) : Option PathBuf :=
  match p.comps with
  | [] => none
  | _ => some ⟨p.isAbs, p.comps.dropLast⟩

/-- `Path::display` / `to_string_lossy`, with `/` as separator. -/
def PathBuf.display (p : PathBuf) : String :=
  (if p.isAbs then "/" else "") ++ String.intercalate "/" p.comps

/-- All prefixes of a component list, shortest first. -/
def listPrefixes : List String → List (List String)
  | [] => [[]]
  | c :: rest => [] :: (listPrefixes rest).map (fun t => c :: t)

/-- The path itself together with all its ancestors: what
`std::fs::create_dir_all` guarantees to exist on success. -/
def PathBuf.selfAndAncestors (p : PathBuf) : List PathBuf :=
  (listPrefixes p.comps).map (fun cs => ⟨p.isAbs, cs⟩)

/-- An engine-level (sqlx) error, kept opaque: only its message matters
to this layer. -/
structure SqlxError where
  msg : String
deriving DecidableEq, Repr

/-- `DatabaseError` from src/src/error.rs (the variants this layer can
produce; `Migration`, `Serialization`, `Io`, `InvalidData` are carried
along for faithfulness of the enum). -/
inductive DatabaseError where
  | Connection (e : SqlxError)
  | Migration (s : String)
  | Query (s : String)
  | Serialization (s : String)
  | NotInitialized
  | PathResolution (s : String)
  | DirectoryCreation (s : String)
  | Io (s : String)
  | InvalidData (message : String)
deriving DecidableEq, Repr

/-- `sqlx::sqlite::SqliteQueryResult`: affected rows and last insert id. -/
structure SqliteQueryResult where
  rowsAffected : Nat
  lastInsertRowid : Int
deriving DecidableEq, Repr

/-- A decoded row (the `T : FromRow` result), kept opaque as a list of
column strings. -/
abbrev Row := List String

/-- A pooled connection handle produced by the engine: an allocation id
and the URL it was opened against. -/
structure Pool where
  id : Nat
  url : String
deriving DecidableEq, Repr

/-- The ambient state: host platform, environment, filesystem directory
set, and the external sqlx engine as oracles.  Pool allocation hands out
`nextPoolId` and bumps it; `closedPools` records pools explicitly closed
via `Pool::close`. -/
structure World where
  isWindows : Bool
  /-- `std::env::var("USERPROFILE")`, already parsed as a path;
  `none` models the variable being absent. -/
  userProfile : Option PathBuf
  /-- `dirs::home_dir()`. -/
  homeDir : Option PathBuf
  /-- The set of directories that exist on the filesystem. -/
  dirs : List PathBuf
  /-- Oracle: `some msg` when `std::fs::create_dir_all` on this directory
  fails with an OS error carrying `msg`. -/
  mkdirFails : PathBuf → Option String
  /-- Oracle: `some e` when the engine fails to open a pool at this URL. -/
  connectFails : String → Option SqlxError
  nextPoolId : Nat
  closedPools : List Nat
  /-- Oracle: engine result of `sqlx::query(q).bind(params..).execute`. -/
  execResult : Nat → String → List String → Except SqlxError SqliteQueryResult
  /-- Oracle: engine result of `fetch_all` (both raw rows and decoded). -/
  fetchAllResult : Nat → String → List String → Except SqlxError (List Row)
  /-- Oracle: engine result of `query_as(..).fetch_one`. -/
  fetchOneResult : Nat → String → Except SqlxError Row
  /-- Oracle: engine result of `query_as(..).fetch_optional`. -/
  fetchOptionalResult : Nat → String → Except SqlxError (Option Row)

/-- `SqlitePoolOptions::new().connect(url)`: either the engine fails, or
a fresh pool handle is allocated. -/
def World.connectPool (w : World) (url : String) : Except SqlxError (Pool × World) :=
  match w.connectFails url with
  | some e => .error e
  | none => .ok (⟨w.nextPoolId, url⟩, { w with nextPoolId := w.nextPoolId + 1 })

/-- `DatabaseConnection` from database.rs: wraps the pool. -/
structure DatabaseConnection where
  pool : Pool
deriving DecidableEq, Repr

/-- `DatabaseConnection::new(database_url)`. -/
def DatabaseConnection.new (url : String) (w : World) :
    Except SqlxError (DatabaseConnection × World) :=
  match w.connectPool url with
  | .error e => .error e
  | .ok (p, w') => .ok (⟨p⟩, w')

/-- `DatabaseConnection::close`: closes the pool. -/
def DatabaseConnection.close (c : DatabaseConnection) (w : World) : World :=
  { w with closedPools := c.pool.id :: w.closedPools }

/-- `Database` from database.rs: optional connection plus the recorded
path string. -/
structure Database where
  connection : Option DatabaseConnection
  database_path : String
deriving DecidableEq, Repr

/-- `Database::new(database_path)` (the path already rendered as a
string, as `to_string_lossy` does). -/
def Database.new (database_path : String) : Database :=
  ⟨none, database_path⟩

/-- `Database::new_in_memory()`. -/
def Database.new_in_memory : Database :=
  ⟨none, ":memory:"⟩

/-- `get_default_database_path()` from database.rs. -/
def get_default_database_path (w : World) : Except DatabaseError PathBuf :=
  if w.isWindows then
    match w.userProfile with
    | none => .error (.PathResolution "USERPROFILE not found: environment variable not found")
    | some up =>
      .ok (((((up.join "AppData").join "Local").join "BurnCloud")).join "data.db")
  else
    match w.homeDir with
    | none => .error (.PathResolution "Home directory not found")
    | some h => .ok ((h.join ".burncloud").join "data.db")

/-- `create_directory_if_not_exists(path)` from database.rs: if the
path's parent exists (or there is no parent) do nothing; otherwise
`create_dir_all` it, surfacing failures as `DirectoryCreation`. -/
def create_directory_if_not_exists (path : PathBuf) (w : World) :
    Except DatabaseError World :=
  match path.parent with
  | none => .ok w
  | some parent =>
    if parent ∈ w.dirs then .ok w
    else
      match w.mkdirFails parent with
      | some e => .error (.DirectoryCreation (parent.display ++ ": " ++ e))
      | none => .ok { w with dirs := parent.selfAndAncestors ++ w.dirs }

/-- `Database::new_default()`. -/
def Database.new_default (w : World) : Except DatabaseError Database :=
  match get_default_database_path w with
  | .error e => .error e
  | .ok p => .ok (Database.new p.display)

/-- `str::replace('\\', "/")` with a single-character pattern: every
backslash character becomes a forward slash. -/
def normalizeSeparators (s : String) : String :=
  String.mk (s.data.map (fun ch => if ch = '\\' then '/' else ch))

/-- The SQLite URL computed inside `Database::initialize`: the in-memory
sentinel maps to `sqlite::memory:`, otherwise backslashes are normalized
to `/` and the path is prefixed with `sqlite:`. -/
def Database.databaseUrl (db : Database) : String :=
  if db.database_path = ":memory:" then "sqlite::memory:"
  else "sqlite:" ++ normalizeSeparators db.database_path

/-- `Database::initialize(&mut self)`: open a pool at the computed URL;
on success store it in the connection slot.  The returned `Database` is
the post-state of `self`. -/
def Database.initDb (db : Database) (w : World) :
    Except DatabaseError Unit × Database × World :=
  match DatabaseConnection.new db.databaseUrl w with
  | .error e => (.error (.Connection e), db, w)
  | .ok (c, w') => (.ok (), { db with connection := some c }, w')

/-- `Database::connection(&self)`: the stored connection or
`NotInitialized`. -/
def Database.connectionGet (db : Database) : Except DatabaseError DatabaseConnection :=
  match db.connection with
  | some c => .ok c
  | none => .error .NotInitialized

/-- `Database::create_tables(&self)`: checks initialization, does
nothing else. -/
def Database.create_tables (db : Database) (w : World) :
    Except DatabaseError Unit × Database × World :=
  match db.connectionGet with
  | .error e => (.error e, db, w)
  | .ok _ => (.ok (), db, w)

/-- `Database::close(mut self)`: take the connection if present and
close its pool; always `Ok(())`.  No successor handle is returned — the
Rust signature consumes `self`. -/
def Database.close (db : Database) (w : World) : Except DatabaseError Unit × World :=
  match db.connection with
  | some c => (.ok (), c.close w)
  | none => (.ok (), w)

/-- `Database::execute_query(&self, query)`. -/
def Database.execute_query (db : Database) (q : String) (w : World) :
    Except DatabaseError SqliteQueryResult × Database × World :=
  match db.connectionGet with
  | .error e => (.error e, db, w)
  | .ok conn =>
    match w.execResult conn.pool.id q [] with
    | .error e => (.error (.Connection e), db, w)
    | .ok r => (.ok r, db, w)

/-- `Database::execute_query_with_params(&self, query, params)`. -/
def Database.execute_query_with_params (db : Database) (q : String)
    (params : List String) (w : World) :
    Except DatabaseError SqliteQueryResult × Database × World :=
  match db.connectionGet with
  | .error e => (.error e, db, w)
  | .ok conn =>
    match w.execResult conn.pool.id q params with
    | .error e => (.error (.Connection e), db, w)
    | .ok r => (.ok r, db, w)

/-- `Database::query(&self, query)`. -/
def Database.query (db : Database) (q : String) (w : World) :
    Except DatabaseError (List Row) × Database × World :=
  match db.connectionGet with
  | .error e => (.error e, db, w)
  | .ok conn =>
    match w.fetchAllResult conn.pool.id q [] with
    | .error e => (.error (.Connection e), db, w)
    | .ok rows => (.ok rows, db, w)

/-- `Database::query_with_params(&self, query, params)`. -/
def Database.query_with_params (db : Database) (q : String)
    (params : List String) (w : World) :
    Except DatabaseError (List Row) × Database × World :=
  match db.connectionGet with
  | .error e => (.error e, db, w)
  | .ok conn =>
    match w.fetchAllResult conn.pool.id q params with
    | .error e => (.error (.Connection e), db, w)
    | .ok rows => (.ok rows, db, w)

/-- `Database::fetch_one(&self, query)`. -/
def Database.fetch_one (db : Database) (q : String) (w : World) :
    Except DatabaseError Row × Database × World :=
  match db.connectionGet with
  | .error e => (.error e, db, w)
  | .ok conn =>
    match w.fetchOneResult conn.pool.id q with
    | .error e => (.error (.Connection e), db, w)
    | .ok r => (.ok r, db, w)

/-- `Database::fetch_all(&self, query)`. -/
def Database.fetch_all (db : Database) (q : String) (w : World) :
    Except DatabaseError (List Row) × Database × World :=
  match db.connectionGet with
  | .error e => (.error e, db, w)
  | .ok conn =>
    match w.fetchAllResult conn.pool.id q [] with
    | .error e => (.error (.Connection e), db, w)
    | .ok rs => (.ok rs, db, w)

/-- `Database::fetch_optional(&self, query)`. -/
def Database.fetch_optional (db : Database) (q : String) (w : World) :
    Except DatabaseError (Option Row) × Database × World :=
  match db.connectionGet with
  | .error e => (.error e, db, w)
  | .ok conn =>
    match w.fetchOptionalResult conn.pool.id q with
    | .error e => (.error (.Connection e), db, w)
    | .ok r => (.ok r, db, w)

/-- `Database::new_default_initialized()`: resolve the default path,
ensure its directory, construct and initialize. -/
def Database.new_default_initialized (w : World) :
    Except DatabaseError Database × World :=
  match get_default_database_path w with
  | .error e => (.error e, w)
  | .ok p =>
    match create_directory_if_not_exists p w with
    | .error e => (.error e, w)
    | .ok w' =>
      match (Database.new p.display).initDb w' with
      | (.error e, _, w'') => (.error e, w'')
      | (.ok _, db', w'') => (.ok db', w'')

/-- `create_database(path)`. -/
def create_database (path : String) (w : World) :
    Except DatabaseError Database × World :=
  match (Database.new path).initDb w with
  | (.error e, _, w') => (.error e, w')
  | (.ok _, db', w') => (.ok db', w')

/-- `create_in_memory_database()`. -/
def create_in_memory_database (w : World) :
    Except DatabaseError Database × World :=
  match Database.new_in_memory.initDb w with
  | (.error e, _, w') => (.error e, w')
  | (.ok _, db', w') => (.ok db', w')

/-- `create_default_database()`. -/
def create_default_database (w : World) :
    Except DatabaseError Database × World :=
  Database.new_default_initialized w

/-! ### Concrete worlds used to instantiate the theorems -/

/-- A benign POSIX-like world: home directory `/home/u` exists, directory
creation and pool opening succeed, the engine answers queries. -/
def baseWorld : World where
  isWindows := false
  userProfile := none
  homeDir := some ⟨true, ["home", "u"]⟩
  dirs := [⟨true, []⟩, ⟨true, ["home"]⟩, ⟨true, ["home", "u"]⟩]
  mkdirFails := fun _ => none
  connectFails := fun _ => none
  nextPoolId := 0
  closedPools := []
  execResult := fun _ _ _ => .ok ⟨0, 0⟩
  fetchAllResult := fun _ _ _ => .ok []
  fetchOneResult := fun _ _ => .error ⟨"no rows returned"⟩
  fetchOptionalResult := fun _ _ => .ok none

/-- A Windows-like world with a user profile present. -/
def winWorld : World :=
  { baseWorld with isWindows := true, userProfile := some ⟨true, ["Users", "u"]⟩ }

/-- A POSIX-like world where the home directory cannot be resolved. -/
def noHomeWorld : World := { baseWorld with homeDir := none }

/-- A Windows-like world where `USERPROFILE` is absent. -/
def noProfileWorld : World := { baseWorld with isWindows := true }

/-- A world in which directory creation always fails. -/
def mkdirFailWorld : World :=
  { baseWorld with mkdirFails := fun _ => some "permission denied" }

/-- A world in which the engine cannot open any pool. -/
def connectFailWorld : World :=
  { baseWorld with connectFails := fun _ => some ⟨"unable to open database file"⟩ }

/-- A world whose home directory is a relative path. -/
def relHomeWorld : World := { baseWorld with homeDir := some ⟨false, ["home", "u"]⟩ }

/-- A world in which query execution fails with an engine error. -/
def execFailWorld : World :=
  { baseWorld with execResult := fun _ _ _ => .error ⟨"no such table: t"⟩ }

/-- A world in which pool id 0 has already been handed out. -/
def reinitWorld : World := { baseWorld with nextPoolId := 1 }

/-! ### Helper lemmas -/

/-- A list is one of its own prefixes. -/
theorem mem_listPrefixes_self (l : List String) : l ∈ listPrefixes l := by
  induction l with
  | nil => simp [listPrefixes]
  | cons c rest ih =>
    simp only [listPrefixes, List.mem_cons, List.mem_map]
    exact Or.inr ⟨rest, ih, rfl⟩

/-- A path is among its own ancestors list. -/
theorem PathBuf.self_mem_selfAndAncestors (p : PathBuf) : p ∈ p.selfAndAncestors := by
  simp only [PathBuf.selfAndAncestors, List.mem_map]
  exact ⟨p.comps, mem_listPrefixes_self p.comps, rfl⟩

/-- On success, `create_directory_if_not_exists` makes the parent exist
and changes nothing but `dirs`. -/
theorem create_dir_ok_spec (path par : PathBuf) (w w' : World)
    (hpar : path.parent = some par)
    (h : create_directory_if_not_exists path w = .ok w') :
    par ∈ w'.dirs ∧ w'.nextPoolId = w.nextPoolId ∧
    w'.closedPools = w.closedPools ∧ ∀ d ∈ w.dirs, d ∈ w'.dirs := by
  unfold create_directory_if_not_exists at h
  rw [hpar] at h
  by_cases hmem : par ∈ w.dirs
  · simp only [if_pos hmem, Except.ok.injEq] at h
    subst h
    exact ⟨hmem, rfl, rfl, fun d hd => hd⟩
  · simp only [if_neg hmem] at h
    cases hfail : w.mkdirFails par with
    | some e => rw [hfail] at h; exact absurd h (by simp)
    | none =>
      rw [hfail] at h
      simp only [Except.ok.injEq] at h
      subst h
      refine ⟨?_, rfl, rfl, fun d hd => ?_⟩
      · exact List.mem_append.mpr (Or.inl (PathBuf.self_mem_selfAndAncestors par))
      · exact List.mem_append.mpr (Or.inr hd)

/-- A successful `initialize` stores a pool freshly allocated at the
computed URL and touches nothing in the world but the allocation
counter. -/
theorem initialize_ok_spec (db db' : Database) (w w' : World) (u : Unit)
    (h : db.initDb w = (.ok u, db', w')) :
    db'.connection = some ⟨⟨w.nextPoolId, db.databaseUrl⟩⟩ ∧
    db'.database_path = db.database_path ∧
    w'.dirs = w.dirs ∧ w'.closedPools = w.closedPools ∧
    w'.nextPoolId = w.nextPoolId + 1 ∧
    w.connectFails db.databaseUrl = none := by
  unfold Database.initDb DatabaseConnection.new World.connectPool at h
  cases hc : w.connectFails db.databaseUrl with
  | some e => rw [hc] at h; exact absurd h (by simp)
  | none =>
    rw [hc] at h
    simp only [Prod.mk.injEq] at h
    obtain ⟨-, hdb, hw⟩ := h
    subst hdb; subst hw
    exact ⟨rfl, rfl, rfl, rfl, rfl, rfl⟩

/-- A failed `initialize` leaves both the handle and the world exactly
as they were. -/
theorem initialize_error_spec (db : Database) (w : World) (e : DatabaseError)
    (h : (db.initDb w).1 = .error e) :
    (db.initDb w).2.1 = db ∧ (db.initDb w).2.2 = w := by
  unfold Database.initDb DatabaseConnection.new World.connectPool at *
  cases hc : w.connectFails db.databaseUrl with
  | some e' => exact ⟨rfl, rfl⟩
  | none => rw [hc] at h; exact absurd h (by simp)

/-! ### Claim theorems -/

/-- C1: on a handle whose connection slot is empty — the state of every
handle on which `initialize` has never succeeded, since only a successful
`initialize` fills the slot and every constructor leaves it empty —
`connection`, `create_tables` and all query/fetch operations return the
`NotInitialized` error (and, being total functions, never panic). -/
theorem uninitialized_ops_fail (db : Database) (w : World) (q : String)
    (ps : List String) (h : db.connection = none) :
    (Database.new db.database_path).connection = none ∧
    Database.new_in_memory.connection = none ∧
    db.connectionGet = .error .NotInitialized ∧
    (db.create_tables w).1 = .error .NotInitialized ∧
    (db.execute_query q w).1 = .error .NotInitialized ∧
    (db.execute_query_with_params q ps w).1 = .error .NotInitialized ∧
    (db.query q w).1 = .error .NotInitialized ∧
    (db.query_with_params q ps w).1 = .error .NotInitialized ∧
    (db.fetch_one q w).1 = .error .NotInitialized ∧
    (db.fetch_all q w).1 = .error .NotInitialized ∧
    (db.fetch_optional q w).1 = .error .NotInitialized := by
  have hg : db.connectionGet = .error .NotInitialized := by
    unfold Database.connectionGet
    rw [h]
  refine ⟨rfl, rfl, hg, ?_, ?_, ?_, ?_, ?_, ?_, ?_, ?_⟩ <;>
    simp only [Database.create_tables, Database.execute_query,
      Database.execute_query_with_params, Database.query,
      Database.query_with_params, Database.fetch_one, Database.fetch_all,
      Database.fetch_optional, hg]

/-- C1 witness: a freshly constructed file-backed handle in a concrete
world. -/
theorem uninitialized_ops_fail_witness :
    (Database.new "a.db").connection = none ∧
    ((Database.new "a.db").connectionGet = .error .NotInitialized ∧
     ((Database.new "a.db").create_tables baseWorld).1 = .error .NotInitialized ∧
     ((Database.new "a.db").execute_query "SELECT 1" baseWorld).1 = .error .NotInitialized ∧
     ((Database.new "a.db").execute_query_with_params "SELECT ?" ["1"] baseWorld).1 = .error .NotInitialized ∧
     ((Database.new "a.db").query "SELECT 1" baseWorld).1 = .error .NotInitialized ∧
     ((Database.new "a.db").query_with_params "SELECT ?" ["1"] baseWorld).1 = .error .NotInitialized ∧
     ((Database.new "a.db").fetch_one "SELECT 1" baseWorld).1 = .error .NotInitialized ∧
     ((Database.new "a.db").fetch_all "SELECT 1" baseWorld).1 = .error .NotInitialized ∧
     ((Database.new "a.db").fetch_optional "SELECT 1" baseWorld).1 = .error .NotInitialized) :=
  ⟨rfl,
   (uninitialized_ops_fail (Database.new "a.db") baseWorld "SELECT 1" ["1"] rfl).2.2.1,
   (uninitialized_ops_fail (Database.new "a.db") baseWorld "SELECT 1" ["1"] rfl).2.2.2.1,
   (uninitialized_ops_fail (Database.new "a.db") baseWorld "SELECT 1" ["1"] rfl).2.2.2.2.1,
   (uninitialized_ops_fail (Database.new "a.db") baseWorld "SELECT ?" ["1"] rfl).2.2.2.2.2.1,
   (uninitialized_ops_fail (Database.new "a.db") baseWorld "SELECT 1" ["1"] rfl).2.2.2.2.2.2.1,
   (uninitialized_ops_fail (Database.new "a.db") baseWorld "SELECT ?" ["1"] rfl).2.2.2.2.2.2.2.1,
   (uninitialized_ops_fail (Database.new "a.db") baseWorld "SELECT 1" ["1"] rfl).2.2.2.2.2.2.2.2.1,
   (uninitialized_ops_fail (Database.new "a.db") baseWorld "SELECT 1" ["1"] rfl).2.2.2.2.2.2.2.2.2.1,
   (uninitialized_ops_fail (Database.new "a.db") baseWorld "SELECT 1" ["1"] rfl).2.2.2.2.2.2.2.2.2.2⟩

/-- C3: a path-resolution or directory-creation failure makes
`new_default_initialized` return that error with the world untouched — no
initialized handle is produced; and a failed `initialize` leaves the
handle (in particular an absent connection slot) and the world exactly
as they were. -/
theorem default_init_failure_aborts :
    (∀ (w : World) (e : DatabaseError), get_default_database_path w = .error e →
       Database.new_default_initialized w = (.error e, w)) ∧
    (∀ (w : World) (p : PathBuf) (e : DatabaseError),
       get_default_database_path w = .ok p →
       create_directory_if_not_exists p w = .error e →
       Database.new_default_initialized w = (.error e, w)) ∧
    (∀ (db : Database) (w : World) (e : DatabaseError),
       (db.initDb w).1 = .error e →
       (db.initDb w).2.1 = db ∧ (db.initDb w).2.2 = w) := by
  refine ⟨?_, ?_, ?_⟩
  · intro w e h
    unfold Database.new_default_initialized
    rw [h]
  · intro w p e hp hdir
    simp only [Database.new_default_initialized, hp, hdir]
  · intro db w e h
    exact initialize_error_spec db w e h

/-- C3 witness: missing home directory, failing `create_dir_all`, and a
failing engine connect, each at a concrete world. -/
theorem default_init_failure_aborts_witness :
    get_default_database_path noHomeWorld =
      .error (.PathResolution "Home directory not found") ∧
    Database.new_default_initialized noHomeWorld =
      (.error (.PathResolution "Home directory not found"), noHomeWorld) ∧
    get_default_database_path mkdirFailWorld =
      .ok ⟨true, ["home", "u", ".burncloud", "data.db"]⟩ ∧
    create_directory_if_not_exists ⟨true, ["home", "u", ".burncloud", "data.db"]⟩ mkdirFailWorld =
      .error (.DirectoryCreation "/home/u/.burncloud: permission denied") ∧
    Database.new_default_initialized mkdirFailWorld =
      (.error (.DirectoryCreation "/home/u/.burncloud: permission denied"), mkdirFailWorld) ∧
    ((Database.new "a.db").initDb connectFailWorld).1 =
      .error (.Connection ⟨"unable to open database file"⟩) ∧
    ((Database.new "a.db").initDb connectFailWorld).2.1 = Database.new "a.db" :=
  ⟨rfl,
   default_init_failure_aborts.1 noHomeWorld _ rfl,
   rfl, rfl,
   default_init_failure_aborts.2.1 mkdirFailWorld
     ⟨true, ["home", "u", ".burncloud", "data.db"]⟩ _ rfl rfl,
   rfl,
   (default_init_failure_aborts.2.2 (Database.new "a.db") connectFailWorld
     (.Connection ⟨"unable to open database file"⟩) rfl).1⟩

/-- C4: `get_default_database_path` branch by branch — on a Windows-like
host it fails with `PathResolution` when the user profile is absent and
otherwise appends `AppData/Local/BurnCloud/data.db` to the profile; on a
POSIX-like host it fails with `PathResolution` when the home directory is
unresolvable and otherwise appends `.burncloud/data.db` to the home. -/
theorem default_path_resolution_branches (w : World) :
    (w.isWindows = true → w.userProfile = none →
       get_default_database_path w =
         .error (.PathResolution "USERPROFILE not found: environment variable not found")) ∧
    (∀ up : PathBuf, w.isWindows = true → w.userProfile = some up →
       get_default_database_path w =
         .ok ⟨up.isAbs, up.comps ++ ["AppData", "Local", "BurnCloud", "data.db"]⟩) ∧
    (w.isWindows = false → w.homeDir = none →
       get_default_database_path w =
         .error (.PathResolution "Home directory not found")) ∧
    (∀ hd : PathBuf, w.isWindows = false → w.homeDir = some hd →
       get_default_database_path w =
         .ok ⟨hd.isAbs, hd.comps ++ [".burncloud", "data.db"]⟩) := by
  refine ⟨fun h1 h2 => ?_, fun up h1 h2 => ?_, fun h1 h2 => ?_, fun hd h1 h2 => ?_⟩ <;>
    simp [get_default_database_path, PathBuf.join, h1, h2]

/-- C4 witness: all four branches at concrete worlds. -/
theorem default_path_resolution_branches_witness :
    get_default_database_path noProfileWorld =
      .error (.PathResolution "USERPROFILE not found: environment variable not found") ∧
    get_default_database_path winWorld =
      .ok ⟨true, ["Users", "u", "AppData", "Local", "BurnCloud", "data.db"]⟩ ∧
    get_default_database_path noHomeWorld =
      .error (.PathResolution "Home directory not found") ∧
    get_default_database_path baseWorld =
      .ok ⟨true, ["home", "u", ".burncloud", "data.db"]⟩ :=
  ⟨(default_path_resolution_branches noProfileWorld).1 rfl rfl,
   (default_path_resolution_branches winWorld).2.1 ⟨true, ["Users", "u"]⟩ rfl rfl,
   (default_path_resolution_branches noHomeWorld).2.2.1 rfl rfl,
   (default_path_resolution_branches baseWorld).2.2.2 ⟨true, ["home", "u"]⟩ rfl rfl⟩

/-- C6: `create_directory_if_not_exists` is idempotent — when the parent
directory already exists it returns success with the world unchanged;
when the parent is missing, success makes the parent and all its
ancestors exist; a `create_dir_all` failure is surfaced as
`DirectoryCreation`; and after any success, running it again is a no-op
success. -/
theorem create_dir_idempotent_spec (path par : PathBuf) (w : World)
    (hpar : path.parent = some par) :
    (par ∈ w.dirs → create_directory_if_not_exists path w = .ok w) ∧
    (∀ w', par ∉ w.dirs → create_directory_if_not_exists path w = .ok w' →
       par ∈ w'.dirs ∧ ∀ q ∈ par.selfAndAncestors, q ∈ w'.dirs) ∧
    (∀ e, par ∉ w.dirs → w.mkdirFails par = some e →
       create_directory_if_not_exists path w =
         .error (.DirectoryCreation (par.display ++ ": " ++ e))) ∧
    (∀ w', create_directory_if_not_exists path w = .ok w' →
       create_directory_if_not_exists path w' = .ok w') := by
  refine ⟨?_, ?_, ?_, ?_⟩
  · intro hmem
    simp only [create_directory_if_not_exists, hpar]
    rw [if_pos hmem]
  · intro w' hmem h
    simp only [create_directory_if_not_exists, hpar] at h
    rw [if_neg hmem] at h
    cases hfail : w.mkdirFails par with
    | some e => rw [hfail] at h; exact absurd h (by simp)
    | none =>
      rw [hfail] at h
      simp only [Except.ok.injEq] at h
      subst h
      constructor
      · exact List.mem_append.mpr (Or.inl (PathBuf.self_mem_selfAndAncestors par))
      · intro q hq
        exact List.mem_append.mpr (Or.inl hq)
  · intro e hmem hfail
    simp only [create_directory_if_not_exists, hpar]
    rw [if_neg hmem, hfail]
  · intro w' h
    have hmem' : par ∈ w'.dirs := (create_dir_ok_spec path par w w' hpar h).1
    simp only [create_directory_if_not_exists, hpar]
    rw [if_pos hmem']

/-- C6 witness: creating `/home/u/.burncloud` in a world where it is
missing, a no-op when it exists, a surfaced failure, and idempotence,
all at concrete inputs. -/
theorem create_dir_idempotent_spec_witness :
    PathBuf.parent ⟨true, ["home", "u", ".burncloud", "data.db"]⟩ =
      some ⟨true, ["home", "u", ".burncloud"]⟩ ∧
    PathBuf.mk true ["home", "u", ".burncloud"] ∉ baseWorld.dirs ∧
    (∀ w', create_directory_if_not_exists ⟨true, ["home", "u", ".burncloud", "data.db"]⟩ baseWorld = .ok w' →
       PathBuf.mk true ["home", "u", ".burncloud"] ∈ w'.dirs ∧
       ∀ q ∈ (PathBuf.mk true ["home", "u", ".burncloud"]).selfAndAncestors, q ∈ w'.dirs) ∧
    PathBuf.parent ⟨true, ["home", "u", "data.db"]⟩ = some ⟨true, ["home", "u"]⟩ ∧
    PathBuf.mk true ["home", "u"] ∈ baseWorld.dirs ∧
    create_directory_if_not_exists ⟨true, ["home", "u", "data.db"]⟩ baseWorld = .ok baseWorld ∧
    create_directory_if_not_exists ⟨true, ["home", "u", ".burncloud", "data.db"]⟩ mkdirFailWorld =
      .error (.DirectoryCreation "/home/u/.burncloud: permission denied") ∧
    (∀ w', create_directory_if_not_exists ⟨true, ["home", "u", ".burncloud", "data.db"]⟩ baseWorld = .ok w' →
       create_directory_if_not_exists ⟨true, ["home", "u", ".burncloud", "data.db"]⟩ w' = .ok w') :=
  ⟨rfl, by decide,
   fun w' h =>
     (create_dir_idempotent_spec ⟨true, ["home", "u", ".burncloud", "data.db"]⟩
       ⟨true, ["home", "u", ".burncloud"]⟩ baseWorld rfl).2.1 w' (by decide) h,
   rfl, by decide,
   (create_dir_idempotent_spec ⟨true, ["home", "u", "data.db"]⟩
     ⟨true, ["home", "u"]⟩ baseWorld rfl).1 (by decide),
   (create_dir_idempotent_spec ⟨true, ["home", "u", ".burncloud", "data.db"]⟩
     ⟨true, ["home", "u", ".burncloud"]⟩ mkdirFailWorld rfl).2.2.1 "permission denied"
     (by decide) rfl,
   fun w' h =>
     (create_dir_idempotent_spec ⟨true, ["home", "u", ".burncloud", "data.db"]⟩
       ⟨true, ["home", "u", ".burncloud"]⟩ baseWorld rfl).2.2.2 w' h⟩

/-- C7: `close` consumes the handle — it takes the `Database` by value
and returns no successor handle, mirroring the Rust `mut self`
signature — always returns success, leaves the world untouched when the
handle was never initialized, and closes the stored pool when one is
present. -/
theorem close_spec (db : Database) (w : World) :
    (db.close w).1 = .ok () ∧
    (db.connection = none → (db.close w).2 = w) ∧
    (∀ c, db.connection = some c →
       (db.close w).2 = { w with closedPools := c.pool.id :: w.closedPools }) := by
  unfold Database.close DatabaseConnection.close
  cases hc : db.connection with
  | none =>
    exact ⟨rfl, fun _ => rfl, fun c h => absurd h (by simp)⟩
  | some c =>
    refine ⟨rfl, fun h => absurd h (by simp), fun c' h => ?_⟩
    injection h with h'
    subst h'
    rfl

/-- C7 witness: closing an uninitialized handle is a no-op success;
closing an initialized one records its pool as closed. -/
theorem close_spec_witness :
    ((Database.new "a.db").close baseWorld).1 = .ok () ∧
    ((Database.new "a.db").close baseWorld).2 = baseWorld ∧
    ((Database.mk (some ⟨⟨0, "sqlite:a.db"⟩⟩) "a.db").close baseWorld).2 =
      { baseWorld with closedPools := [0] } :=
  ⟨(close_spec (Database.new "a.db") baseWorld).1,
   (close_spec (Database.new "a.db") baseWorld).2.1 rfl,
   (close_spec (Database.mk (some ⟨⟨0, "sqlite:a.db"⟩⟩) "a.db") baseWorld).2.2
     ⟨⟨0, "sqlite:a.db"⟩⟩ rfl⟩

/-- C2 counterexample: a handle constructed with the file path `d/f.db`,
whose parent directory `d` does not exist, initializes successfully in a
world whose engine accepts the URL, yet the parent directory still does
not exist afterwards — `initialize` performs no directory creation. -/
theorem initialize_creates_no_directory_cex :
    PathBuf.mk false ["d"] ∉ baseWorld.dirs ∧
    ((Database.new "d/f.db").initDb baseWorld).1 = .ok () ∧
    ((Database.new "d/f.db").initDb baseWorld).2.1.connection =
      some ⟨⟨0, "sqlite:d/f.db"⟩⟩ ∧
    PathBuf.mk false ["d"] ∉ ((Database.new "d/f.db").initDb baseWorld).2.2.dirs := by
  refine ⟨by decide, rfl, by decide, by decide⟩

/-- C2 (amended): `initialize` never touches the filesystem's directory
set; the parent directory is guaranteed only by the default-path flow —
a successful `new_default_initialized` leaves the default path's parent
directory existing and returns a handle holding a pooled connection that
has not been closed. -/
theorem default_flow_ensures_parent_dir :
    (∀ (db : Database) (w : World), ((db.initDb w).2.2).dirs = w.dirs) ∧
    (∀ (w : World) (p par : PathBuf) (db' : Database) (w' : World),
       get_default_database_path w = .ok p → p.parent = some par →
       w.nextPoolId ∉ w.closedPools →
       Database.new_default_initialized w = (.ok db', w') →
       par ∈ w'.dirs ∧
       ∃ c, db'.connection = some c ∧ c.pool.id ∉ w'.closedPools) := by
  constructor
  · intro db w
    unfold Database.initDb DatabaseConnection.new World.connectPool
    cases hc : w.connectFails db.databaseUrl with
    | some e => rfl
    | none => rfl
  · intro w p par db' w' hp hpar hopen hsucc
    simp only [Database.new_default_initialized, hp] at hsucc
    cases hdir : create_directory_if_not_exists p w with
    | error e => rw [hdir] at hsucc; exact absurd hsucc (by simp)
    | ok w1 =>
      rw [hdir] at hsucc
      dsimp only at hsucc
      obtain ⟨hpar1, hnp, hcp, -⟩ := create_dir_ok_spec p par w w1 hpar hdir
      rcases hinit : (Database.new p.display).initDb w1 with ⟨r, db2, w2⟩
      rw [hinit] at hsucc
      cases r with
      | error e => simp at hsucc
      | ok u =>
        simp only [Prod.mk.injEq, Except.ok.injEq] at hsucc
        obtain ⟨hdb, hw⟩ := hsucc
        subst hdb; subst hw
        obtain ⟨hconn, -, hdirs, hclosed, -, -⟩ :=
          initialize_ok_spec (Database.new p.display) db2 w1 w2 u hinit
        refine ⟨hdirs ▸ hpar1, ⟨⟨w1.nextPoolId, (Database.new p.display).databaseUrl⟩⟩, hconn, ?_⟩
        rw [hclosed, hcp, hnp]
        exact hopen

/-- C2 witness (for the amended claim): in a world where the default
path's parent `/home/u/.burncloud` is missing, `new_default_initialized`
succeeds, the parent directory exists afterwards, and the handle holds
an open pooled connection. -/
theorem default_flow_ensures_parent_dir_witness :
    get_default_database_path baseWorld =
      .ok ⟨true, ["home", "u", ".burncloud", "data.db"]⟩ ∧
    PathBuf.parent ⟨true, ["home", "u", ".burncloud", "data.db"]⟩ =
      some ⟨true, ["home", "u", ".burncloud"]⟩ ∧
    baseWorld.nextPoolId ∉ baseWorld.closedPools ∧
    PathBuf.mk true ["home", "u", ".burncloud"] ∈
      (Database.new_default_initialized baseWorld).2.dirs ∧
    ∃ c, (Database.mk (some ⟨⟨0, "sqlite:/home/u/.burncloud/data.db"⟩⟩)
            "/home/u/.burncloud/data.db").connection = some c ∧
      c.pool.id ∉ (Database.new_default_initialized baseWorld).2.closedPools := by
  have h := default_flow_ensures_parent_dir.2 baseWorld
    ⟨true, ["home", "u", ".burncloud", "data.db"]⟩ ⟨true, ["home", "u", ".burncloud"]⟩
    (Database.mk (some ⟨⟨0, "sqlite:/home/u/.burncloud/data.db"⟩⟩)
      "/home/u/.burncloud/data.db")
    ((Database.new_default_initialized baseWorld).2)
    rfl rfl (by decide) rfl
  exact ⟨rfl, rfl, by decide, h.1, h.2⟩

/-- C5 counterexample: in a world whose home directory resolves to the
relative path `home/u`, the resolver succeeds but its output is not an
absolute path. -/
theorem default_path_not_absolute_cex :
    get_default_database_path relHomeWorld =
      .ok ⟨false, ["home", "u", ".burncloud", "data.db"]⟩ ∧
    (PathBuf.mk false ["home", "u", ".burncloud", "data.db"]).isAbs = false :=
  ⟨rfl, rfl⟩

/-- C5 (amended): whenever the resolver succeeds its output ends with
the fixed filename `data.db`; it is moreover absolute provided the
profile/home path it is built from is absolute (the code never checks
this). -/
theorem default_path_suffix_and_abs (w : World) (p : PathBuf)
    (h : get_default_database_path w = .ok p) :
    (∃ pre, p.comps = pre ++ ["data.db"]) ∧
    ((∀ up, w.userProfile = some up → up.isAbs = true) →
     (∀ hd, w.homeDir = some hd → hd.isAbs = true) → p.isAbs = true) := by
  unfold get_default_database_path at h
  by_cases hw : w.isWindows
  · rw [if_pos hw] at h
    cases hup : w.userProfile with
    | none => rw [hup] at h; exact absurd h (by simp)
    | some up =>
      rw [hup] at h
      simp only [Except.ok.injEq] at h
      subst h
      refine ⟨⟨up.comps ++ ["AppData", "Local", "BurnCloud"], ?_⟩, fun habs _ => ?_⟩
      · simp [PathBuf.join]
      · simpa [PathBuf.join] using habs up rfl
  · rw [if_neg hw] at h
    cases hhd : w.homeDir with
    | none => rw [hhd] at h; exact absurd h (by simp)
    | some hd =>
      rw [hhd] at h
      simp only [Except.ok.injEq] at h
      subst h
      refine ⟨⟨hd.comps ++ [".burncloud"], ?_⟩, fun _ habs => ?_⟩
      · simp [PathBuf.join]
      · simpa [PathBuf.join] using habs hd rfl

/-- C5 witness: the Windows branch at a world whose profile is an
absolute path. -/
theorem default_path_suffix_and_abs_witness :
    get_default_database_path winWorld =
      .ok ⟨true, ["Users", "u", "AppData", "Local", "BurnCloud", "data.db"]⟩ ∧
    (∃ pre, (PathBuf.mk true ["Users", "u", "AppData", "Local", "BurnCloud", "data.db"]).comps =
      pre ++ ["data.db"]) ∧
    (PathBuf.mk true ["Users", "u", "AppData", "Local", "BurnCloud", "data.db"]).isAbs = true := by
  have h := default_path_suffix_and_abs winWorld
    ⟨true, ["Users", "u", "AppData", "Local", "BurnCloud", "data.db"]⟩ rfl
  exact ⟨rfl, h.1,
    h.2 (fun up hup => (Option.some.inj hup) ▸ rfl)
        (fun hd hhd => (Option.some.inj hhd) ▸ rfl)⟩

/-- C8: the execute/fetch operations borrow the handle immutably — the
post-state handle is the input handle for every operation, whatever the
engine answers — and a failed `execute_query` surfaces the engine error
while leaving the handle initialized (a subsequent `connection` lookup
still succeeds) and closing no pool. -/
theorem failed_query_preserves_handle (db : Database) (c : DatabaseConnection)
    (w : World) (q : String) (ps : List String) (e : SqlxError)
    (h : db.connection = some c) (hfail : w.execResult c.pool.id q [] = .error e) :
    (db.execute_query q w).1 = .error (.Connection e) ∧
    (db.execute_query q w).2.1 = db ∧
    (db.execute_query_with_params q ps w).2.1 = db ∧
    (db.query q w).2.1 = db ∧
    (db.query_with_params q ps w).2.1 = db ∧
    (db.fetch_one q w).2.1 = db ∧
    (db.fetch_all q w).2.1 = db ∧
    (db.fetch_optional q w).2.1 = db ∧
    (db.execute_query q w).2.2.closedPools = w.closedPools ∧
    ((db.execute_query q w).2.1).connectionGet = .ok c := by
  have hg : db.connectionGet = .ok c := by
    unfold Database.connectionGet
    rw [h]
  refine ⟨?_, ?_, ?_, ?_, ?_, ?_, ?_, ?_, ?_, ?_⟩
  · simp only [Database.execute_query, hg, hfail]
  · simp only [Database.execute_query, hg, hfail]
  · simp only [Database.execute_query_with_params, hg]
    cases w.execResult c.pool.id q ps <;> rfl
  · simp only [Database.query, hg]
    cases w.fetchAllResult c.pool.id q [] <;> rfl
  · simp only [Database.query_with_params, hg]
    cases w.fetchAllResult c.pool.id q ps <;> rfl
  · simp only [Database.fetch_one, hg]
    cases w.fetchOneResult c.pool.id q <;> rfl
  · simp only [Database.fetch_all, hg]
    cases w.fetchAllResult c.pool.id q [] <;> rfl
  · simp only [Database.fetch_optional, hg]
    cases w.fetchOptionalResult c.pool.id q <;> rfl
  · simp only [Database.execute_query, hg, hfail]
  · simp only [Database.execute_query, hg, hfail]

/-- C8 witness: an initialized handle in a world whose engine rejects
every statement. -/
theorem failed_query_preserves_handle_witness :
    (Database.mk (some ⟨⟨0, "sqlite:a.db"⟩⟩) "a.db").connection = some ⟨⟨0, "sqlite:a.db"⟩⟩ ∧
    ((Database.mk (some ⟨⟨0, "sqlite:a.db"⟩⟩) "a.db").execute_query "INSERT INTO t VALUES (1)" execFailWorld).1 =
      .error (.Connection ⟨"no such table: t"⟩) ∧
    ((Database.mk (some ⟨⟨0, "sqlite:a.db"⟩⟩) "a.db").execute_query "INSERT INTO t VALUES (1)" execFailWorld).2.1 =
      Database.mk (some ⟨⟨0, "sqlite:a.db"⟩⟩) "a.db" ∧
    (((Database.mk (some ⟨⟨0, "sqlite:a.db"⟩⟩) "a.db").execute_query "INSERT INTO t VALUES (1)" execFailWorld).2.1).connectionGet =
      .ok ⟨⟨0, "sqlite:a.db"⟩⟩ := by
  have h := failed_query_preserves_handle (Database.mk (some ⟨⟨0, "sqlite:a.db"⟩⟩) "a.db")
    ⟨⟨0, "sqlite:a.db"⟩⟩ execFailWorld "INSERT INTO t VALUES (1)" []
    ⟨"no such table: t"⟩ rfl rfl
  exact ⟨rfl, h.1, h.2.1, h.2.2.2.2.2.2.2.2.2⟩

/-- C9: a handle constructed by `Database::new` on the literal string
`:memory:` is the same value as one from `Database::new_in_memory`;
`initialize` treats both identically and, on success, stores a pool
opened against the in-memory URL `sqlite::memory:` rather than a
file-backed one. -/
theorem memory_sentinel_equiv :
    Database.new ":memory:" = Database.new_in_memory ∧
    Database.new_in_memory.databaseUrl = "sqlite::memory:" ∧
    (∀ w : World, (Database.new ":memory:").initDb w =
       Database.new_in_memory.initDb w) ∧
    (∀ (w : World) (db' : Database) (w' : World),
       Database.new_in_memory.initDb w = (.ok (), db', w') →
       ∃ c, db'.connection = some c ∧ c.pool.url = "sqlite::memory:") := by
  have hurl : Database.new_in_memory.databaseUrl = "sqlite::memory:" := by decide
  refine ⟨rfl, hurl, fun w => rfl, fun w db' w' h => ?_⟩
  obtain ⟨hconn, -, -, -, -, -⟩ :=
    initialize_ok_spec Database.new_in_memory db' w w' () h
  exact ⟨⟨⟨w.nextPoolId, Database.new_in_memory.databaseUrl⟩⟩, hconn, hurl⟩

/-- C9 witness: initializing both handles in a concrete world yields the
same result, and the stored pool's URL is the in-memory one. -/
theorem memory_sentinel_equiv_witness :
    Database.new ":memory:" = Database.new_in_memory ∧
    (Database.new ":memory:").initDb baseWorld =
      Database.new_in_memory.initDb baseWorld ∧
    ∃ c, (Database.mk (some ⟨⟨0, "sqlite::memory:"⟩⟩) ":memory:").connection = some c ∧
      c.pool.url = "sqlite::memory:" :=
  ⟨memory_sentinel_equiv.1, memory_sentinel_equiv.2.2.1 baseWorld,
   memory_sentinel_equiv.2.2.2 baseWorld
     (Database.mk (some ⟨⟨0, "sqlite::memory:"⟩⟩) ":memory:")
     ((Database.new_in_memory.initDb baseWorld).2.2) rfl⟩

/-- C10: re-initializing an already-initialized handle, when the engine
accepts the URL, succeeds and overwrites the stored connection with a
freshly allocated pool — distinct from the previous one, which is
dropped without being closed (`closedPools` is unchanged) — and the
subsequent `connection` lookup returns the new pool. -/
theorem reinitialize_overwrites_pool (db : Database) (c : DatabaseConnection) (w : World)
    (_h : db.connection = some c) (hfresh : c.pool.id < w.nextPoolId)
    (hok : w.connectFails db.databaseUrl = none) :
    (db.initDb w).1 = .ok () ∧
    (db.initDb w).2.1.connection = some ⟨⟨w.nextPoolId, db.databaseUrl⟩⟩ ∧
    (⟨⟨w.nextPoolId, db.databaseUrl⟩⟩ : DatabaseConnection) ≠ c ∧
    (db.initDb w).2.2.closedPools = w.closedPools ∧
    (db.initDb w).2.1.connectionGet = .ok ⟨⟨w.nextPoolId, db.databaseUrl⟩⟩ := by
  refine ⟨?_, ?_, ?_, ?_, ?_⟩
  · simp only [Database.initDb, DatabaseConnection.new, World.connectPool, hok]
  · simp only [Database.initDb, DatabaseConnection.new, World.connectPool, hok]
  · intro heq
    have : w.nextPoolId = c.pool.id := congrArg (fun x => x.pool.id) heq
    rw [this] at hfresh
    exact Nat.lt_irrefl _ hfresh
  · simp only [Database.initDb, DatabaseConnection.new, World.connectPool, hok]
  · simp only [Database.initDb, DatabaseConnection.new, World.connectPool, hok,
      Database.connectionGet]

/-- C10 witness: a handle holding pool 0 re-initialized in a world whose
allocator is at pool id 1. -/
theorem reinitialize_overwrites_pool_witness :
    (Database.mk (some ⟨⟨0, "sqlite:a.db"⟩⟩) "a.db").connection = some ⟨⟨0, "sqlite:a.db"⟩⟩ ∧
    ((Database.mk (some ⟨⟨0, "sqlite:a.db"⟩⟩) "a.db").initDb reinitWorld).1 = .ok () ∧
    ((Database.mk (some ⟨⟨0, "sqlite:a.db"⟩⟩) "a.db").initDb reinitWorld).2.1.connection =
      some ⟨⟨1, "sqlite:a.db"⟩⟩ ∧
    (⟨⟨1, "sqlite:a.db"⟩⟩ : DatabaseConnection) ≠ ⟨⟨0, "sqlite:a.db"⟩⟩ ∧
    ((Database.mk (some ⟨⟨0, "sqlite:a.db"⟩⟩) "a.db").initDb reinitWorld).2.2.closedPools =
      reinitWorld.closedPools := by
  have h := reinitialize_overwrites_pool (Database.mk (some ⟨⟨0, "sqlite:a.db"⟩⟩) "a.db")
    ⟨⟨0, "sqlite:a.db"⟩⟩ reinitWorld rfl (by decide) rfl
  exact ⟨rfl, h.1, h.2.1, h.2.2.1, h.2.2.2.1⟩
